import Mathlib

/-!
Verification development for the STM8 serial flasher core
(`bootloader.c` and `serial_comm.c`).

The bootloader protocol engine is embedded as pure Lean functions over an
explicit wire state `St`: the reply script `rx` lists, in order, the byte
chunks that successive `receive_port` calls return (an entry is the bytes
the OS delivered before the timeout; `[]` or a missing entry is a receive
timeout), `sent` accumulates the frames passed to `send_port`, and `vtime`
mirrors the termios `VTIME` field that `set_timeout` writes (`timeout/100`).
Machine integers are `Nat` with explicit `% 256` / `% 2^32` where the C
truncates; the process-terminating `Exit(1, ...)` calls of the source are
embedded as `Except` errors.  `send_port` is assumed to accept all bytes
(the short-write `Exit` paths are not reachable in the model), and the
`printf`/`fflush`/`SLEEP` calls have no wire effect and are dropped.
-/

namespace STM8

/-! ## Protocol byte constants (from the shared header, as used by bootloader.c) -/

def SYNCH : Nat := 0x7F
def ACK   : Nat := 0x79
def NACK  : Nat := 0x1F
def GET   : Nat := 0x00
def READ  : Nat := 0x11
def GO    : Nat := 0x21
def WRITE : Nat := 0x31
def ERASE : Nat := 0x43

/-! ## Framing helpers -/

/-- The 5-byte address frame built in `bsl_memCheck`/`bsl_memRead`/
`bsl_memWrite`/`bsl_jumpTo`: `Tx[0..3]` are the big-endian bytes of the
32-bit address and `Tx[4]` is their XOR (`Tx[0]^Tx[1]^Tx[2]^Tx[3]`,
left-associated as in the C source). -/
def encode_addr (addr : Nat) : List Nat :=
  let b0 := (addr >>> 24) % 256
  let b1 := (addr >>> 16) % 256
  let b2 := (addr >>> 8) % 256
  let b3 := addr % 256
  [b0, b1, b2, b3, Nat.xor (Nat.xor (Nat.xor b0 b1) b2) b3]

/-! ## Wire state -/

/-- Wire state threaded through the protocol functions: `rx` is the pending
reply script (head = reply to the next `receive_port` call), `sent` the
frames already given to `send_port`, `vtime` the termios `VTIME` value the
port currently holds (`set_timeout t` stores `t / 100`). -/
structure St where
  rx : List (List Nat)
  sent : List (List Nat)
  vtime : Nat
deriving DecidableEq

/-- `send_port`: the frame goes on the wire (the model assumes the OS
accepts all bytes, so the `len != lenTx` exit paths are unreachable). -/
def sendF (s : St) (frame : List Nat) : St :=
  { s with sent := s.sent ++ [frame] }

/-- `receive_port ptrPort n`: consume the next scripted reply, delivering at
most `n` bytes (the C function never reads more than `lenRx`).  An empty
script means the port stays silent until the timeout. -/
def recvF (s : St) (n : Nat) : List Nat × St :=
  match s.rx with
  | [] => ([], s)
  | r :: rest => (r.take n, { s with rx := rest })

/-- `set_timeout(ptrPort, t)`: the POSIX branch stores `VTIME = t/100`
(granularity 100 ms); the port's effective read timeout is `VTIME * 100`. -/
def set_timeoutSt (s : St) (t : Nat) : St :=
  { s with vtime := t / 100 }

/-- Typed stand-ins for the `Exit(1, g_pauseOnExit)` process terminations of
the source; the constructor names follow the error message printed there. -/
inductive BslError where
  | ack1Timeout
  | ack2Timeout
  | ack3Timeout
  | dataTimeout
  | ackTimeout
  | ack1Failure (got : Nat)
  | ack2Failure
  | ack3Failure
  | ackFailure
  | wrongCode (expected : Nat)
  | deviceNotIdentified
deriving DecidableEq

deriving instance DecidableEq for Except

/-! ## `bsl_memCheck` (bootloader.c lines 483-606) -/

/-- `bsl_memCheck(ptrPort, addr)`.  Phase 1: send `[READ, READ^0xFF]`,
receive 1 byte, require `ACK`.  Phase 2: send the address frame, receive
1 byte; on any non-`ACK` byte return `false` (memory not readable — not an
error).  Phase 3 (executed on `ACK`): send `[1-1, (1-1)^0xFF]`, receive
2 bytes (`ACK` + the 1 data byte, which is discarded), require `ACK`,
return `true`. -/
def bsl_memCheck (s : St) (addr : Nat) : St × Except BslError Bool :=
  let s := sendF s [READ, Nat.xor READ 0xFF]
  let (r, s) := recvF s 1
  if r.length ≠ 1 then (s, .error .ack1Timeout)
  else if r.headD 0 ≠ ACK then (s, .error (.ack1Failure (r.headD 0)))
  else
    let s := sendF s (encode_addr addr)
    let (r, s) := recvF s 1
    if r.length ≠ 1 then (s, .error .ack2Timeout)
    else if r.headD 0 ≠ ACK then (s, .ok false)
    else
      let s := sendF s [1 - 1, Nat.xor (1 - 1) 0xFF]
      let (r, s) := recvF s 2
      if r.length ≠ 2 then (s, .error .dataTimeout)
      else if r.headD 0 ≠ ACK then (s, .error .ack3Failure)
      else (s, .ok true)

/-! ## `bsl_getInfo` (bootloader.c lines 127-265) -/

/-- The GET phase of `bsl_getInfo`, entered once a density probe succeeded:
restore the timeout to 1000 ms, send `[GET, GET^0xFF]`, receive 9 bytes,
check `Rx[0]` and `Rx[8]` are `ACK` and `Rx[3..7]` echo the command codes,
and return `(flashsize, Rx[2])`. -/
def bsl_getInfoGet (s : St) (flashsize : Nat) : St × Except BslError (Nat × Nat) :=
  let s := set_timeoutSt s 1000
  let s := sendF s [GET, Nat.xor GET 0xFF]
  let (r, s) := recvF s 9
  if r.length ≠ 9 then (s, .error .ackTimeout)
  else if r.getD 0 0 ≠ ACK ∨ r.getD 8 0 ≠ ACK then (s, .error .ackFailure)
  else if r.getD 3 0 ≠ GET then (s, .error (.wrongCode GET))
  else if r.getD 4 0 ≠ READ then (s, .error (.wrongCode READ))
  else if r.getD 5 0 ≠ GO then (s, .error (.wrongCode GO))
  else if r.getD 6 0 ≠ WRITE then (s, .error (.wrongCode WRITE))
  else if r.getD 7 0 ≠ ERASE then (s, .error (.wrongCode ERASE))
  else (s, .ok (flashsize, r.getD 2 0))

/-- The density-probe if/else-if chain of `bsl_getInfo`: probe the top
flash address of each candidate density in descending order with
`bsl_memCheck`; the first success picks `flashsize`; all four failing
terminates with "cannot identify device". -/
def bsl_getInfo_probe (s : St) : St × Except BslError Nat :=
  match bsl_memCheck s 0x047FFF with
  | (s, .error e) => (s, .error e)
  | (s, .ok true) => (s, .ok 256)
  | (s, .ok false) =>
  match bsl_memCheck s 0x027FFF with
  | (s, .error e) => (s, .error e)
  | (s, .ok true) => (s, .ok 128)
  | (s, .ok false) =>
  match bsl_memCheck s 0x00FFFF with
  | (s, .error e) => (s, .error e)
  | (s, .ok true) => (s, .ok 32)
  | (s, .ok false) =>
  match bsl_memCheck s 0x009FFF with
  | (s, .error e) => (s, .error e)
  | (s, .ok true) => (s, .ok 8)
  | (s, .ok false) => (s, .error .deviceNotIdentified)

/-- `bsl_getInfo(ptrPort, &flashsize, &vers)`: reduce the timeout to
100 ms, run the density probe, then the GET phase (which starts by
restoring the 1000 ms timeout). -/
def bsl_getInfo (s : St) : St × Except BslError (Nat × Nat) :=
  match bsl_getInfo_probe (set_timeoutSt s 100) with
  | (s, .error e) => (s, .error e)
  | (s, .ok flashsize) => bsl_getInfoGet s flashsize

/-! ## `bsl_sync` (bootloader.c lines 32-109)

`bsl_sync` is modelled over a reply oracle `replies : Nat → Option Nat`:
`replies k` is the single byte (or silence) that the `receive_port` call of
attempt `k` (0-based) yields.  Each attempt sends the 1-byte frame
`[SYNCH]`, so the number of attempts equals the number of `SYNCH` bytes
sent. -/

/-- The do-while exit test of `bsl_sync`: one byte was received and it is
`ACK` or `NACK`. -/
def syncDone (rx : Option Nat) : Bool :=
  match rx with
  | some b => b == ACK || b == NACK
  | none => false

/-- The retry loop of `bsl_sync`: send `[SYNCH]`, receive 1 byte, increment
`count`, and repeat `while (count < 15 && not done)`.  Returns the attempt
count and the last reply.  `fuel` (15 at the top-level call) makes the
recursion structural; the loop condition `count < 15` stops it first. -/
def bsl_sync_aux (replies : Nat → Option Nat) (count fuel : Nat) : Nat × Option Nat :=
  let rx := replies count
  let c := count + 1
  match fuel with
  | 0 => (c, rx)
  | fuel + 1 =>
    if c < 15 && !(syncDone rx) then bsl_sync_aux replies c fuel else (c, rx)

/-- Outcomes of `bsl_sync`: both `ACK` and `NACK` print "success"; a full
byte with any other value exits with "wrong response 0x%02x" (the spec's
`SyncFailed` with the byte surfaced); silence on the last round exits with
"no response" (`SyncFailed`). -/
inductive SyncResult where
  | okAck
  | okNack
  | wrongResponse (b : Nat)
  | noResponse
deriving DecidableEq

/-- The if/else chain after the retry loop of `bsl_sync`, classifying the
last reply. -/
def syncClassify (rx : Option Nat) : SyncResult :=
  match rx with
  | some b => if b = ACK then .okAck else if b = NACK then .okNack else .wrongResponse b
  | none => .noResponse

/-- `bsl_sync(ptrPort)`: run the retry loop from `count = 0`, then classify
the last reply exactly as the if/else chain after the loop does.  The first
component is the number of attempts (= `SYNCH` bytes sent). -/
def bsl_sync (replies : Nat → Option Nat) : Nat × SyncResult :=
  let (attempts, rx) := bsl_sync_aux replies 0 15
  (attempts, syncClassify rx)

/-- `true` on the two "success" branches of `bsl_sync`. -/
def syncSuccess (r : SyncResult) : Bool :=
  match r with
  | .okAck => true
  | .okNack => true
  | _ => false

/-! ## `bsl_memRead` (bootloader.c lines 283-466) -/

/-- One pass of the `bsl_memRead` address loop, reading `remaining` bytes
into the caller buffer `buf` starting at offset `idx`.  Each chunk
(`addrStep = 256`, reduced to the remainder near the end of the range)
sends `[READ, READ^0xFF]` expecting `ACK`, the address frame expecting
`ACK`, then `[addrStep-1, (addrStep-1)^0xFF]` expecting `addrStep + 1`
bytes (`ACK` followed by the data, copied into the buffer). -/
def memReadLoop (s : St) (addr remaining : Nat) (buf : List Nat) (idx : Nat) :
    St × List Nat × Except BslError Unit :=
  if _h : remaining = 0 then (s, buf, .ok ())
  else
    let addrStep := min 256 remaining
    let s := sendF s [READ, Nat.xor READ 0xFF]
    let (r, s) := recvF s 1
    if r.length ≠ 1 then (s, buf, .error .ack1Timeout)
    else if r.headD 0 ≠ ACK then (s, buf, .error (.ack1Failure (r.headD 0)))
    else
      let s := sendF s (encode_addr addr)
      let (r, s) := recvF s 1
      if r.length ≠ 1 then (s, buf, .error .ack2Timeout)
      else if r.headD 0 ≠ ACK then (s, buf, .error .ack2Failure)
      else
        let s := sendF s [(addrStep - 1) % 256, Nat.xor ((addrStep - 1) % 256) 0xFF]
        let (r, s) := recvF s (addrStep + 1)
        if r.length ≠ addrStep + 1 then (s, buf, .error .dataTimeout)
        else if r.headD 0 ≠ ACK then (s, buf, .error .ack3Failure)
        else
          let data := r.drop 1
          let buf := buf.take idx ++ data ++ buf.drop (idx + addrStep)
          memReadLoop s (addr + addrStep) (remaining - addrStep) buf (idx + addrStep)
termination_by remaining
decreasing_by simp_wf; omega

/-- `bsl_memRead(ptrPort, addrStart, numBytes, buf)`: zero the first
`numBytes` entries of the caller buffer, then run the chunk loop.  The
returned list is the final content of the caller buffer. -/
def bsl_memRead (s : St) (addrStart numBytes : Nat) (buf : List Nat) :
    St × List Nat × Except BslError Unit :=
  let buf := List.replicate numBytes 0 ++ buf.drop numBytes
  memReadLoop s addrStart numBytes buf 0

/-! ## `bsl_memWrite` (bootloader.c lines 754-928) -/

/-- The payload frame built for one `bsl_memWrite` chunk: `Tx[0]` is
`addrStep-1`, the chunk's bytes follow, and the running XOR (seeded with
`addrStep-1`) closes the frame.  Bytes on the wire are the C `char` values
reduced mod 256. -/
def payloadFrame (chunk : List Nat) : List Nat :=
  let len1 := (chunk.length - 1) % 256
  let bytes := chunk.map (· % 256)
  (len1 :: bytes) ++ [bytes.foldl Nat.xor len1]

/-- The `bsl_memWrite` address loop over the not-yet-written suffix `data`
of the caller buffer (`addrStep = 128`, reduced to the remainder near the
end of the range).  Each chunk sends `[WRITE, WRITE^0xFF]` expecting `ACK`,
the address frame expecting `ACK`, then the payload frame expecting
`ACK`. -/
def memWriteLoop (s : St) (addr : Nat) (data : List Nat) : St × Except BslError Unit :=
  if h : data = [] then (s, .ok ())
  else
    let addrStep := min 128 data.length
    let s := sendF s [WRITE, Nat.xor WRITE 0xFF]
    let (r, s) := recvF s 1
    if r.length ≠ 1 then (s, .error .ack1Timeout)
    else if r.headD 0 ≠ ACK then (s, .error (.ack1Failure (r.headD 0)))
    else
      let s := sendF s (encode_addr addr)
      let (r, s) := recvF s 1
      if r.length ≠ 1 then (s, .error .ack2Timeout)
      else if r.headD 0 ≠ ACK then (s, .error .ack2Failure)
      else
        let s := sendF s (payloadFrame (data.take addrStep))
        let (r, s) := recvF s 1
        if r.length ≠ 1 then (s, .error .ack3Timeout)
        else if r.headD 0 ≠ ACK then (s, .error .ack3Failure)
        else memWriteLoop s (addr + addrStep) (data.drop addrStep)
termination_by data.length
decreasing_by
  simp_wf
  have hpos : 0 < data.length := List.length_pos.mpr h
  omega

/-- `bsl_memWrite(ptrPort, addrStart, numBytes, buf, verbose)`: `data` is
the `numBytes`-byte slice of the caller buffer that the C indexes with
`buf[idx++]`; `verbose` only affects console output and is dropped. -/
def bsl_memWrite (s : St) (addrStart : Nat) (data : List Nat) : St × Except BslError Unit :=
  memWriteLoop s addrStart data

/-- The frames `bsl_memWrite` puts on the wire for `data` starting at
`addr`, chunk by chunk (derived from the loop above for the all-`ACK`
run). -/
def writeFrames (addr : Nat) (data : List Nat) : List (List Nat) :=
  if h : data = [] then []
  else
    let addrStep := min 128 data.length
    [[WRITE, Nat.xor WRITE 0xFF], encode_addr addr, payloadFrame (data.take addrStep)]
      ++ writeFrames (addr + addrStep) (data.drop addrStep)
termination_by data.length
decreasing_by
  simp_wf
  have hpos : 0 < data.length := List.length_pos.mpr h
  omega

/-- Modelled from the spec: the write frames as §4.3.6 and §8 describe
them — chunks of at most 128 bytes, each payload frame
`[s-1, d0, ..., d(s-1), chk]` with terminating checksum
`(s-1) XOR d0 XOR ... XOR d(s-1)` (stated as an XOR chain, i.e. a right
fold, instead of the C loop's running accumulator). -/
def writeFramesSpec (addr : Nat) (data : List Nat) : List (List Nat) :=
  if h : data = [] then []
  else
    let s := min 128 data.length
    let chunk := (data.take s).map (· % 256)
    [[WRITE, Nat.xor WRITE 0xFF], encode_addr addr,
      ((s - 1) % 256) :: chunk ++ [Nat.xor ((s - 1) % 256) (chunk.foldr Nat.xor 0)]]
      ++ writeFramesSpec (addr + s) (data.drop s)
termination_by data.length
decreasing_by
  simp_wf
  have hpos : 0 < data.length := List.length_pos.mpr h
  omega

/-- The chunks `bsl_memWrite` splits `data` into (`take`/`drop` in steps of
at most 128, matching the loop's `addrStep`). -/
def chunks128 (data : List Nat) : List (List Nat) :=
  if h : data = [] then []
  else data.take (min 128 data.length) :: chunks128 (data.drop (min 128 data.length))
termination_by data.length
decreasing_by
  simp_wf
  have hpos : 0 < data.length := List.length_pos.mpr h
  omega

/-! ## `bsl_flashErase` (bootloader.c lines 622-735) -/

/-- The sector code of `bsl_flashErase`: `(addr - 0x8000) / 1024` in
`uint32_t` arithmetic (wrap-around subtraction), truncated to `uint8_t`.
`addr` is the `uint32_t` argument, so a value `< 2^32`. -/
def eraseSector (addr : Nat) : Nat :=
  ((addr + 0x100000000 - 0x8000) % 0x100000000 / 1024) % 256

/-- `bsl_flashErase(ptrPort, addr)`: send `[ERASE, ERASE^0xFF]` expecting
`ACK`, then `[0x00, sector, 0x00 ^ sector]` expecting `ACK`. -/
def bsl_flashErase (s : St) (addr : Nat) : St × Except BslError Unit :=
  let sector := eraseSector addr
  let s := sendF s [ERASE, Nat.xor ERASE 0xFF]
  let (r, s) := recvF s 1
  if r.length ≠ 1 then (s, .error .ack1Timeout)
  else if r.headD 0 ≠ ACK then (s, .error (.ack1Failure (r.headD 0)))
  else
    let s := sendF s [0x00, sector, Nat.xor 0x00 sector]
    let (r, s) := recvF s 1
    if r.length ≠ 1 then (s, .error .ack2Timeout)
    else if r.headD 0 ≠ ACK then (s, .error .ack2Failure)
    else (s, .ok ())

/-! ## Serial transport, POSIX branch of serial_comm.c (Linux flag values)

The POSIX (`__unix__`) branch of `serial_comm.c` manipulates a `struct
termios` and the TIOCM modem-status word through bit operations.  The
structure below carries exactly the fields the source touches; the flag
constants are the Linux `<termios.h>` / `<sys/ioctl.h>` values.  C truth
(`if (x)`) is `x ≠ 0`; `x & ~FLAG` on a 32-bit flag word is
`x &&& (0xFFFFFFFF ^^^ FLAG)`. -/

def CSIZE   : Nat := 0x30
def CS7     : Nat := 0x20
def CS8     : Nat := 0x30
def CSTOPB  : Nat := 0x40
def CREAD   : Nat := 0x80
def PARENB  : Nat := 0x100
def PARODD  : Nat := 0x200
def CLOCAL  : Nat := 0x800
def CRTSCTS : Nat := 0x80000000
def IXON    : Nat := 0x400
def IXOFF   : Nat := 0x1000
def IXANY   : Nat := 0x800
def ISIG    : Nat := 0x1
def ICANON  : Nat := 0x2
def ECHO    : Nat := 0x8
def ECHOE   : Nat := 0x10
def OPOST   : Nat := 0x1
def TIOCM_DTR : Nat := 0x002
def TIOCM_RTS : Nat := 0x004
def B4800   : Nat := 0o14
def B9600   : Nat := 0o15
def B19200  : Nat := 0o16
def B38400  : Nat := 0o17
def B57600  : Nat := 0o10001
def B115200 : Nat := 0o10002

/-- Clear the bits of `mask` in the 32-bit flag word `x` (C `x & ~mask`). -/
def bitClear (x mask : Nat) : Nat :=
  x &&& (0xFFFFFFFF ^^^ mask)

/-- The `struct termios` fields the source reads or writes. -/
structure Termios where
  ispeed : Nat
  ospeed : Nat
  cflag : Nat
  iflag : Nat
  lflag : Nat
  oflag : Nat
  vmin : Nat
  vtime : Nat
deriving DecidableEq

/-- An open POSIX port: its termios state and the TIOCM modem-status
word. -/
structure PosixPort where
  tio : Termios
  modem : Nat
deriving DecidableEq

/-- The attribute record `get_port_attribute` fills /
`set_port_attribute` consumes (numeric encodings as in the source:
parity 0 = none, 1 = enabled; rts/dtr 0 or 1). -/
structure PortAttrs where
  baudrate : Nat
  timeout : Nat
  numBits : Nat
  parity : Nat
  numStop : Nat
  rts : Nat
  dtr : Nat
deriving DecidableEq

/-- The `switch(baudrate)` mapping a requested baud to a `Bnnnn` constant
(`speed_t brate = baudrate` beforehand, so an unlisted rate keeps the raw
value).  `B14400`/`B28800` are not defined on Linux, so those cases are
compiled out. -/
def brateOf (baudrate : Nat) : Nat :=
  if baudrate = 4800 then B4800
  else if baudrate = 9600 then B9600
  else if baudrate = 19200 then B19200
  else if baudrate = 38400 then B38400
  else if baudrate = 57600 then B57600
  else if baudrate = 115200 then B115200
  else baudrate

/-- `set_port_attribute` (serial_comm.c lines 609-690, POSIX branch): set
both speeds, set `CS7`/`CS8` (without first clearing `CSIZE`), clear
`PARENB` (the parity argument is otherwise ignored in this branch), set or
clear `CSTOPB`, clear `CSIZE` (after the data-bits flag was set), disable
flow control, make raw, set `VMIN = 255` and `VTIME = timeout/100`, and
drive RTS/DTR in the TIOCM word. -/
def set_port_attribute (p : PosixPort)
    (baudrate timeout numBits _parity numStop rts dtr : Nat) : PosixPort :=
  let brate := brateOf baudrate
  let c := p.tio.cflag
  let c := if numBits = 7 then c ||| CS7 else c ||| CS8
  let c := bitClear c PARENB
  let c := if numStop = 1 then bitClear c CSTOPB else c ||| CSTOPB
  let c := bitClear c CSIZE
  let c := bitClear c CRTSCTS
  let c := c ||| CREAD ||| CLOCAL
  let i := bitClear p.tio.iflag (IXON ||| IXOFF ||| IXANY)
  let l := bitClear p.tio.lflag (ICANON ||| ECHO ||| ECHOE ||| ISIG)
  let o := bitClear p.tio.oflag OPOST
  let status := p.modem
  let status := if rts = 1 then status ||| TIOCM_RTS else bitClear status TIOCM_RTS
  let status := if dtr = 1 then status ||| TIOCM_DTR else bitClear status TIOCM_DTR
  { tio := { ispeed := brate, ospeed := brate, cflag := c, iflag := i,
             lflag := l, oflag := o, vmin := 255, vtime := timeout / 100 },
    modem := status }

/-- `get_port_attribute` (serial_comm.c lines 446-518, POSIX branch),
embedded faithfully — including the `|` where the stop-bit and RTS/DTR
readbacks test flags (`c_cflag | CSTOPB`, `status | TIOCM_RTS`,
`status | TIOCM_DTR`). -/
def get_port_attribute (p : PosixPort) : PortAttrs :=
  let brate := p.tio.ospeed
  let baud :=
    if brate = B4800 then 4800
    else if brate = B9600 then 9600
    else if brate = B19200 then 19200
    else if brate = B38400 then 38400
    else if brate = B57600 then 57600
    else if brate = B115200 then 115200
    else 0xFFFFFFFF
  { baudrate := baud
    timeout := p.tio.vtime * 100
    numBits := if p.tio.cflag &&& CS8 ≠ 0 then 8 else 7
    parity := if p.tio.cflag &&& PARENB ≠ 0 then 1 else 0
    numStop := if p.tio.cflag ||| CSTOPB ≠ 0 then 2 else 1
    rts := if p.modem ||| TIOCM_RTS ≠ 0 then 1 else 0
    dtr := if p.modem ||| TIOCM_DTR ≠ 0 then 1 else 0 }

/-! ## `receive_port` (serial_comm.c lines 906-980, POSIX branch)

The POSIX `receive_port` loops `select` + `read` until `lenRx` bytes were
read; the `timeval` handed to `select` is re-initialised to the full
terminal timeout on every pass.  The environment is modelled as the bytes
already buffered at call time plus a list of later `arrivals`, each a pair
`(d, bytes)`: `bytes` become readable `d` milliseconds after the previous
read returned.  `select` reports readable data immediately when bytes are
buffered; otherwise it waits `min d timeout`.  `read` returns at most
`remaining` bytes; surplus bytes of an arrival would stay buffered, but the
loop then has `remaining = 0` and returns.  Read errors (the `EAGAIN`
branch) are not modelled.  The function returns the bytes delivered and
the total elapsed wall-clock time in ms. -/

/-- The `while (remaining)` loop of `receive_port`, entered with nothing
buffered: wait (fresh full `timeout` each pass) for the next arrival, read
from it, repeat. -/
def receive_loop (timeout : Nat) (arrivals : List (Nat × List Nat))
    (remaining elapsed : Nat) (acc : List Nat) : List Nat × Nat :=
  if remaining = 0 then (acc, elapsed)
  else
    match arrivals with
    | [] => (acc, elapsed + timeout)
    | (d, bytes) :: rest =>
      if d ≤ timeout then
        let got := bytes.take remaining
        receive_loop timeout rest (remaining - got.length) (elapsed + d) (acc ++ got)
      else (acc, elapsed + timeout)

/-- `receive_port(fpCom, lenRx, Rx)`: bytes already buffered are readable at
once (`select` returns immediately); the remainder is gathered by
`receive_loop`.  `timeout` is the terminal's effective read timeout
(`VTIME * 100` ms). -/
def receive_port (timeout lenRx : Nat) (buffered : List Nat)
    (arrivals : List (Nat × List Nat)) : List Nat × Nat :=
  receive_loop timeout arrivals (lenRx - (buffered.take lenRx).length) 0
    (buffered.take lenRx)

/-! # Theorems -/

/-! ## Shared helper lemmas -/

/-- `Nat.xor` is the `^^^` operation on `Nat`. -/
theorem xor_def (a b : Nat) : Nat.xor a b = a ^^^ b := rfl

/-- A left fold of XOR equals the seed XORed with the XOR chain (right
fold from 0) of the list. -/
theorem foldl_xor_eq_xor_foldr (l : List Nat) (init : Nat) :
    l.foldl Nat.xor init = Nat.xor init (l.foldr Nat.xor 0) := by
  induction l generalizing init with
  | nil => simp [xor_def]
  | cons a l ih =>
    simp only [List.foldl_cons, List.foldr_cons, ih, xor_def, Nat.xor_assoc]

/-- `bsl_memCheck` never touches the port timeout. -/
theorem bsl_memCheck_vtime (s : St) (addr : Nat) :
    (bsl_memCheck s addr).1.vtime = s.vtime := by
  obtain ⟨rx, sent, vt⟩ := s
  rcases rx with _ | ⟨r1, _ | ⟨r2, _ | ⟨r3, rx3⟩⟩⟩ <;>
    simp [bsl_memCheck, sendF, recvF] <;> split_ifs <;> rfl

/-- The GET phase of `bsl_getInfo` always leaves `VTIME = 10`
(i.e. a 1000 ms read timeout), whatever it returns. -/
theorem bsl_getInfoGet_vtime (s : St) (flashsize : Nat) :
    (bsl_getInfoGet s flashsize).1.vtime = 10 := by
  obtain ⟨rx, sent, vt⟩ := s
  rcases rx with _ | ⟨r1, rx1⟩ <;>
    simp [bsl_getInfoGet, sendF, recvF, set_timeoutSt] <;> split_ifs <;> rfl

/-- The `bsl_sync` retry loop performs at most 15 attempts. -/
theorem bsl_sync_aux_le (replies : Nat → Option Nat) (fuel : Nat) :
    ∀ count, count < 15 → (bsl_sync_aux replies count fuel).1 ≤ 15 := by
  induction fuel with
  | zero => intro count hc; exact hc
  | succ fuel ih =>
    intro count hc
    simp only [bsl_sync_aux]
    split
    · next hcond =>
      simp only [Bool.and_eq_true, decide_eq_true_eq] at hcond
      exact ih (count + 1) hcond.1
    · exact hc

/-- The retry loop exits with an `ACK`/`NACK` reply exactly when some
attempt in the remaining rounds receives one. -/
theorem bsl_sync_aux_done_iff (replies : Nat → Option Nat) (fuel : Nat) :
    ∀ count, fuel + count = 15 → count < 15 →
      (syncDone (bsl_sync_aux replies count fuel).2 = true ↔
        ∃ k, count ≤ k ∧ k < 15 ∧ syncDone (replies k) = true) := by
  induction fuel with
  | zero => intro count hfc hc; omega
  | succ fuel ih =>
    intro count hfc hc
    simp only [bsl_sync_aux]
    split
    · next hcond =>
      simp only [Bool.and_eq_true, decide_eq_true_eq, Bool.not_eq_true'] at hcond
      obtain ⟨hlt, hdone⟩ := hcond
      rw [ih (count + 1) (by omega) hlt]
      constructor
      · rintro ⟨k, hk1, hk2, hk3⟩; exact ⟨k, by omega, hk2, hk3⟩
      · rintro ⟨k, hk1, hk2, hk3⟩
        refine ⟨k, ?_, hk2, hk3⟩
        rcases Nat.eq_or_lt_of_le hk1 with h | h
        · subst h; rw [hk3] at hdone; cases hdone
        · omega
    · next hcond =>
      simp only [Bool.and_eq_true, decide_eq_true_eq, Bool.not_eq_true',
        not_and] at hcond
      by_cases hdone : syncDone (replies count) = true
      · exact iff_of_true hdone ⟨count, Nat.le_refl _, hc, hdone⟩
      · have h14 : count = 14 := by
          by_contra hne
          have h1 := hcond (by omega)
          cases hb : syncDone (replies count) with
          | false => exact h1 hb
          | true => exact hdone hb
        refine iff_of_false hdone ?_
        rintro ⟨k, hk1, hk2, hk3⟩
        have : k = count := by omega
        subst this
        exact hdone hk3

/-- When no attempt before the 15th receives `ACK`/`NACK`, the retry loop
runs all 15 rounds and exits holding the 15th round's reply. -/
theorem bsl_sync_aux_last (replies : Nat → Option Nat) (fuel : Nat) :
    ∀ count, fuel + count = 15 → count < 15 →
      (∀ k, count ≤ k → k < 14 → syncDone (replies k) = false) →
      bsl_sync_aux replies count fuel = (15, replies 14) := by
  induction fuel with
  | zero => intro count hfc hc; omega
  | succ fuel ih =>
    intro count hfc hc hearly
    simp only [bsl_sync_aux]
    split
    · next hcond =>
      simp only [Bool.and_eq_true, decide_eq_true_eq, Bool.not_eq_true'] at hcond
      exact ih (count + 1) (by omega) hcond.1
        (fun k hk1 hk2 => hearly k (by omega) hk2)
    · next hcond =>
      simp only [Bool.and_eq_true, decide_eq_true_eq, Bool.not_eq_true',
        not_and] at hcond
      have h14 : count = 14 := by
        by_contra hne
        have hfalse := hearly count (Nat.le_refl _) (by omega)
        have htrue := hcond (by omega)
        rw [hfalse] at htrue
        exact htrue rfl
      subst h14
      rfl

/-- `syncClassify` reports success exactly on the replies `syncDone`
accepts. -/
theorem syncSuccess_classify (rx : Option Nat) :
    syncSuccess (syncClassify rx) = syncDone rx := by
  rcases rx with _ | b
  · rfl
  · by_cases hA : b = ACK
    · subst hA; decide
    · by_cases hN : b = NACK
      · subst hN; decide
      · simp [syncClassify, syncSuccess, syncDone, hA, hN]

/-- `syncDone` accepts exactly a single `ACK` or `NACK` byte. -/
theorem syncDone_iff (rx : Option Nat) :
    syncDone rx = true ↔ rx = some ACK ∨ rx = some NACK := by
  rcases rx with _ | b
  · simp [syncDone]
  · by_cases hA : b = ACK
    · subst hA; decide
    · by_cases hN : b = NACK
      · subst hN; decide
      · simp [syncDone, hA, hN]

/-- Claim C6: `bsl_sync` sends the `SYNCH` byte at most 15 times; it
succeeds exactly when some attempt `k` (`k < 15`, 0-based) receives a
single byte equal to `ACK` or `NACK` (`NACK` counts as success, printing
"success (NACK)"); and when no attempt does, it exits through one of the
two failure branches (silence → "no response", an unexpected byte →
"wrong response", both the spec's `SyncFailed`). -/
theorem sync_retry_characterization (replies : Nat → Option Nat) :
    (bsl_sync replies).1 ≤ 15
  ∧ (syncSuccess (bsl_sync replies).2 = true ↔
      ∃ k, k < 15 ∧ (replies k = some ACK ∨ replies k = some NACK))
  ∧ (syncSuccess (bsl_sync replies).2 = false →
      (bsl_sync replies).2 = .noResponse ∨
        ∃ b, (bsl_sync replies).2 = .wrongResponse b) := by
  refine ⟨bsl_sync_aux_le replies 15 0 (by omega), ?_, ?_⟩
  · rw [show (bsl_sync replies).2 = syncClassify (bsl_sync_aux replies 0 15).2 from rfl,
      syncSuccess_classify,
      bsl_sync_aux_done_iff replies 15 0 (by omega) (by omega)]
    constructor
    · rintro ⟨k, _, hk2, hk3⟩; exact ⟨k, hk2, (syncDone_iff _).mp hk3⟩
    · rintro ⟨k, hk1, hk2⟩; exact ⟨k, Nat.zero_le _, hk1, (syncDone_iff _).mpr hk2⟩
  · intro hfail
    have hcl : (bsl_sync replies).2 = syncClassify (bsl_sync_aux replies 0 15).2 := rfl
    rw [hcl] at hfail ⊢
    rcases hrx : (bsl_sync_aux replies 0 15).2 with _ | b
    · left; rfl
    · rw [hrx] at hfail
      by_cases hA : b = ACK
      · subst hA; exact absurd hfail (by decide)
      · by_cases hN : b = NACK
        · subst hN; exact absurd hfail (by decide)
        · right; exact ⟨b, by simp [syncClassify, hA, hN]⟩

/-- Claim C6, instantiated: a target that answers `ACK` immediately. -/
theorem sync_retry_characterization_witness :
    (bsl_sync (fun _ => some ACK)).1 ≤ 15
  ∧ (syncSuccess (bsl_sync (fun _ => some ACK)).2 = true ↔
      ∃ k, k < 15 ∧ ((fun _ => some ACK) k = some ACK ∨ (fun _ => some ACK) k = some NACK))
  ∧ (syncSuccess (bsl_sync (fun _ => some ACK)).2 = false →
      (bsl_sync (fun _ => some ACK)).2 = .noResponse ∨
        ∃ b, (bsl_sync (fun _ => some ACK)).2 = .wrongResponse b) :=
  sync_retry_characterization (fun _ => some ACK)

/-- Claim C4 counterexample: a byte that is neither `ACK` nor `NACK`
(0x55 in the first round) is consumed as just another failed retry round;
the loop goes on and a later `ACK` still makes `bsl_sync` succeed (after 2
attempts), so an unexpected byte does not surface as `SyncFailed`. -/
theorem sync_unexpected_byte_retry_cex :
    bsl_sync (fun k => if k = 0 then some 0x55 else some ACK) = (2, .okAck) := by
  decide

/-- Claim C4 as amended: an unexpected single byte in rounds 1..14 is
consumed as a failed retry round (see the counterexample for the possible
later success); only when round 15 delivers the unexpected single byte —
no earlier round having delivered `ACK`/`NACK` — does `bsl_sync` exit
through the "wrong response 0x%02x" branch surfacing that byte. -/
theorem sync_unexpected_byte_last_round (replies : Nat → Option Nat) (b : Nat)
    (hearly : ∀ k, k < 14 → syncDone (replies k) = false)
    (hlast : replies 14 = some b) (hA : b ≠ ACK) (hN : b ≠ NACK) :
    (bsl_sync replies).2 = .wrongResponse b ∧ (bsl_sync replies).1 = 15 := by
  have h := bsl_sync_aux_last replies 15 0 (by omega) (by omega)
    (fun k _ hk => hearly k hk)
  constructor
  · rw [show (bsl_sync replies).2 = syncClassify (bsl_sync_aux replies 0 15).2 from rfl,
      h]
    simp [syncClassify, hlast, hA, hN]
  · rw [show (bsl_sync replies).1 = (bsl_sync_aux replies 0 15).1 from rfl, h]

/-- Claim C4 witness: 14 silent rounds then the unexpected byte 0x55 on
round 15. -/
theorem sync_unexpected_byte_last_round_witness :
    (bsl_sync (fun k => if k < 14 then none else some 0x55)).2 = .wrongResponse 0x55
  ∧ (bsl_sync (fun k => if k < 14 then none else some 0x55)).1 = 15 :=
  sync_unexpected_byte_last_round (fun k => if k < 14 then none else some 0x55) 0x55
    (by decide) (by decide) (by decide) (by decide)

/-- Claim C1 counterexample: when the address phase is `ACK`ed,
`bsl_memCheck` does execute a payload phase — the third frame on the wire
is the length frame `[0x00, 0xFF]`, and the third scripted reply (the
`ACK` + 1 data byte pair) is consumed — before returning `true`.  So "no
length byte is sent and no data byte is read in either case" fails on the
`ACK` case. -/
theorem memCheck_payload_phase_cex :
    (bsl_memCheck ⟨[[ACK], [ACK], [ACK, 0xAB]], [], 10⟩ 0x009FFF).1.sent
      = [[READ, Nat.xor READ 0xFF], encode_addr 0x009FFF, [0x00, 0xFF]]
  ∧ (bsl_memCheck ⟨[[ACK], [ACK], [ACK, 0xAB]], [], 10⟩ 0x009FFF).1.rx = []
  ∧ (bsl_memCheck ⟨[[ACK], [ACK], [ACK, 0xAB]], [], 10⟩ 0x009FFF).2 = .ok true := by
  decide

/-- Claim C1 as amended: `bsl_memCheck` performs all three phases of a
1-byte READ.  On a non-`ACK` byte in the address phase it returns `false`
having sent only the command and address frames and consumed only those
two replies; on `ACK` it additionally sends the length frame `[0x00, 0xFF]`
and consumes a 2-byte reply (`ACK` + 1 data byte, discarded) before
returning `true`. -/
theorem memCheck_phases (s : St) (addr b d : Nat) (rest : List (List Nat)) :
    (s.rx = [ACK] :: [b] :: rest → b ≠ ACK →
      bsl_memCheck s addr =
        ({ rx := rest,
           sent := s.sent ++ [[READ, Nat.xor READ 0xFF], encode_addr addr],
           vtime := s.vtime }, .ok false))
  ∧ (s.rx = [ACK] :: [ACK] :: [ACK, d] :: rest →
      bsl_memCheck s addr =
        ({ rx := rest,
           sent := s.sent ++ [[READ, Nat.xor READ 0xFF], encode_addr addr, [0x00, 0xFF]],
           vtime := s.vtime }, .ok true)) := by
  obtain ⟨rx, sent, vt⟩ := s
  constructor
  · intro hrx hb
    simp only at hrx
    subst hrx
    simp [bsl_memCheck, sendF, recvF, hb]
  · intro hrx
    simp only at hrx
    subst hrx
    simp [bsl_memCheck, sendF, recvF, xor_def, Nat.zero_xor]

/-- Claim C1 witness: the two amended cases at concrete scripts — a `NACK`
at 0x027FFF (probe miss, two frames only) and a full `ACK` dialogue at
0x009FFF (three frames, data reply consumed). -/
theorem memCheck_phases_witness :
    bsl_memCheck ⟨[[ACK], [NACK]], [], 5⟩ 0x027FFF =
      ({ rx := [],
         sent := [] ++ [[READ, Nat.xor READ 0xFF], encode_addr 0x027FFF],
         vtime := 5 }, .ok false)
  ∧ bsl_memCheck ⟨[[ACK], [ACK], [ACK, 0xCD]], [], 5⟩ 0x009FFF =
      ({ rx := [],
         sent := [] ++ [[READ, Nat.xor READ 0xFF], encode_addr 0x009FFF, [0x00, 0xFF]],
         vtime := 5 }, .ok true) :=
  ⟨(memCheck_phases ⟨[[ACK], [NACK]], [], 5⟩ 0x027FFF NACK 0 []).1 rfl (by decide),
   (memCheck_phases ⟨[[ACK], [ACK], [ACK, 0xCD]], [], 5⟩ 0x009FFF 0 0xCD []).2 rfl⟩

/-- Claim C2: on the POSIX (Linux) branch, setting the attribute record
(9600 baud, 1000 ms, 8 data bits, no parity, 1 stop bit, RTS low, DTR low)
and reading it back yields 7 data bits, 2 stop bits, RTS = 1 and DTR = 1 —
not the record just set.  `get_port_attribute` tests `CSTOPB`,
`TIOCM_RTS` and `TIOCM_DTR` with `|` instead of `&` (so those reads are
constant), and `set_port_attribute` clears `CSIZE` after setting `CS8`
(so the data-bit readback sees 7).  The spec's roundtrip invariant is the
stated intent; the code is the slip. -/
theorem set_get_attribute_roundtrip_bug :
    get_port_attribute
        (set_port_attribute ⟨⟨0, 0, 0, 0, 0, 0, 0, 0⟩, 0⟩ 9600 1000 8 0 1 0 0)
      = { baudrate := 9600, timeout := 1000, numBits := 7, parity := 0,
          numStop := 2, rts := 1, dtr := 1 }
  ∧ get_port_attribute
        (set_port_attribute ⟨⟨0, 0, 0, 0, 0, 0, 0, 0⟩, 0⟩ 9600 1000 8 0 1 0 0)
      ≠ { baudrate := 9600, timeout := 1000, numBits := 8, parity := 0,
          numStop := 1, rts := 0, dtr := 0 } := by
  decide

/-- The readback of stop bits, RTS and DTR is constant on the POSIX
branch: `x | CSTOPB`, `x | TIOCM_RTS` and `x | TIOCM_DTR` are never 0, so
`get_port_attribute` reports 2 stop bits and asserted RTS/DTR for every
port state. -/
theorem get_port_attribute_constant_readback (p : PosixPort) :
    (get_port_attribute p).numStop = 2
  ∧ (get_port_attribute p).rts = 1
  ∧ (get_port_attribute p).dtr = 1 := by
  have hor : ∀ m i : Nat, m.testBit i = true → ∀ x : Nat, x ||| m ≠ 0 := by
    intro m i hm x h0
    have ht := congrArg (fun n => Nat.testBit n i) h0
    simp only [Nat.testBit_lor, Nat.zero_testBit, hm, Bool.or_true] at ht
    cases ht
  refine ⟨?_, ?_, ?_⟩ <;>
    simp [get_port_attribute, hor CSTOPB 6 (by decide),
      hor TIOCM_RTS 2 (by decide), hor TIOCM_DTR 1 (by decide)]

/-- Claim C5 counterexample: with the probe timeout 2000 ms before the
call (`VTIME = 20`), a successful `bsl_getInfo` leaves the port timeout at
1000 ms (`VTIME = 10`), not at the prior 2000 ms: the 100 ms probe timeout
is "restored" to the constant 1000, not to the previous value. -/
theorem getInfo_timeout_restore_cex :
    (bsl_getInfo ⟨[[ACK], [ACK], [ACK, 0],
        [ACK, 6, 0x12, GET, READ, GO, WRITE, ERASE, ACK]], [], 20⟩).1.vtime = 10
  ∧ (bsl_getInfo ⟨[[ACK], [ACK], [ACK, 0],
        [ACK, 6, 0x12, GET, READ, GO, WRITE, ERASE, ACK]], [], 20⟩).2 = .ok (256, 0x12)
  ∧ (10 : Nat) ≠ 20 := by
  decide

/-- Claim C5 as amended: whenever `bsl_getInfo` returns a result (i.e. it
got past the probe phase into the GET phase), the port timeout afterwards
is the fixed 1000 ms (`VTIME = 10`), independent of the timeout before the
call. -/
theorem getInfo_timeout_fixed_restore (s : St) (r : Nat × Nat)
    (h : (bsl_getInfo s).2 = .ok r) : (bsl_getInfo s).1.vtime = 10 := by
  unfold bsl_getInfo at h ⊢
  generalize bsl_getInfo_probe (set_timeoutSt s 100) = p at h ⊢
  obtain ⟨s1, e1⟩ := p
  rcases e1 with e1 | flashsize
  · change Except.error e1 = Except.ok r at h
    exact Except.noConfusion h
  · exact bsl_getInfoGet_vtime s1 flashsize

/-- Claim C5 witness: the amended statement at a concrete run whose prior
`VTIME` is 33. -/
theorem getInfo_timeout_fixed_restore_witness :
    (bsl_getInfo ⟨[[ACK], [ACK], [ACK, 0],
        [ACK, 6, 0x12, GET, READ, GO, WRITE, ERASE, ACK]], [], 33⟩).1.vtime = 10 :=
  getInfo_timeout_fixed_restore
    ⟨[[ACK], [ACK], [ACK, 0], [ACK, 6, 0x12, GET, READ, GO, WRITE, ERASE, ACK]], [], 33⟩
    (256, 0x12) (by decide)

/-- Claim C10: with a byte count of 0, the chunk loops of `bsl_memRead`
and `bsl_memWrite` run zero iterations: no frame is sent, no reply is
consumed (the wire state is returned unchanged), the result is success,
and `bsl_memRead` returns the caller's buffer untouched. -/
theorem memRead_memWrite_zero_bytes (s : St) (addrStart : Nat) (buf : List Nat) :
    bsl_memRead s addrStart 0 buf = (s, buf, .ok ())
  ∧ bsl_memWrite s addrStart [] = (s, .ok ()) := by
  constructor
  · simp [bsl_memRead, memReadLoop]
  · simp [bsl_memWrite, memWriteLoop]

/-- `receive_loop` never delivers more than the requested remainder. -/
theorem receive_loop_length_le (timeout : Nat) (arrivals : List (Nat × List Nat)) :
    ∀ remaining elapsed acc,
      (receive_loop timeout arrivals remaining elapsed acc).1.length ≤
        acc.length + remaining := by
  induction arrivals with
  | nil =>
    intro remaining elapsed acc
    by_cases h0 : remaining = 0 <;> simp [receive_loop, h0]
  | cons a rest ih =>
    intro remaining elapsed acc
    obtain ⟨d, bytes⟩ := a
    by_cases h0 : remaining = 0
    · simp [receive_loop, h0]
    · by_cases hd : d ≤ timeout
      · simp only [receive_loop, if_neg h0, if_pos hd]
        refine le_trans (ih _ _ _) ?_
        have hgot : (bytes.take remaining).length ≤ remaining := by
          simp [Nat.min_le_right]
        simp only [List.length_append]
        omega
      · simp [receive_loop, h0, hd]

/-- When every arrival is within one timeout window and the arrivals carry
enough bytes, `receive_loop` delivers the full remainder — regardless of
how the inter-arrival delays add up. -/
theorem receive_loop_full (timeout : Nat) (arrivals : List (Nat × List Nat)) :
    ∀ remaining elapsed acc,
      (∀ p ∈ arrivals, p.1 ≤ timeout) →
      remaining ≤ (arrivals.map fun p => p.2.length).sum →
      (receive_loop timeout arrivals remaining elapsed acc).1.length =
        acc.length + remaining := by
  induction arrivals with
  | nil =>
    intro remaining elapsed acc _ hsum
    have h0 : remaining = 0 := by simpa using hsum
    simp [receive_loop, h0]
  | cons a rest ih =>
    intro remaining elapsed acc hdelay hsum
    obtain ⟨d, bytes⟩ := a
    by_cases h0 : remaining = 0
    · simp [receive_loop, h0]
    · have hd : d ≤ timeout := hdelay (d, bytes) (List.mem_cons_self _ _)
      simp only [receive_loop, if_neg h0, if_pos hd]
      have hsum' : remaining - (bytes.take remaining).length ≤
          (rest.map fun p => p.2.length).sum := by
        simp only [List.map_cons, List.sum_cons] at hsum
        have : (bytes.take remaining).length = min remaining bytes.length := by
          simp [Nat.min_comm]
        omega
      rw [ih _ _ _ (fun p hp => hdelay p (List.mem_cons_of_mem _ hp)) hsum']
      have : (bytes.take remaining).length ≤ remaining := by simp
      simp only [List.length_append]
      omega

/-- Each pass of `receive_loop` waits at most one full timeout, so the
total elapsed time is bounded by one window per arrival plus one final
window — not by a single window. -/
theorem receive_loop_elapsed_le (timeout : Nat) (arrivals : List (Nat × List Nat)) :
    ∀ remaining elapsed acc,
      (receive_loop timeout arrivals remaining elapsed acc).2 ≤
        elapsed + timeout * (arrivals.length + 1) := by
  induction arrivals with
  | nil =>
    intro remaining elapsed acc
    by_cases h0 : remaining = 0 <;> simp [receive_loop, h0]
  | cons a rest ih =>
    intro remaining elapsed acc
    obtain ⟨d, bytes⟩ := a
    by_cases h0 : remaining = 0
    · simp only [receive_loop, if_pos h0]
      exact Nat.le_add_right _ _
    · by_cases hd : d ≤ timeout
      · simp only [receive_loop, if_neg h0, if_pos hd]
        refine le_trans (ih _ _ _) ?_
        simp only [List.length_cons]
        calc elapsed + d + timeout * (rest.length + 1)
            ≤ elapsed + timeout + timeout * (rest.length + 1) :=
              Nat.add_le_add_right (Nat.add_le_add_left hd _) _
          _ = elapsed + timeout * (rest.length + 1 + 1) := by ring
      · simp only [receive_loop, if_neg h0, if_neg hd, List.length_cons]
        calc elapsed + timeout = elapsed + timeout * 1 := by ring
          _ ≤ elapsed + timeout * (rest.length + 1 + 1) :=
              Nat.add_le_add_left (Nat.mul_le_mul_left _ (by omega)) _

/-- Claim C3 counterexample: with a 100 ms timeout and two bytes arriving
90 ms apart each, `receive_port` returns both bytes after 180 ms of total
wall-clock wait — more than the configured 100 ms — because the `timeval`
handed to `select` is re-initialised to the full timeout on every pass of
the loop.  The timeout is therefore not a single total wait bounding the
whole call. -/
theorem receive_port_total_timeout_cex :
    receive_port 100 2 [] [(90, [0xAA]), (90, [0xBB])] = ([0xAA, 0xBB], 180)
  ∧ ¬(180 ≤ 100) := by
  decide

/-- Claim C3 as amended: `receive_port` reads up to `lenRx` bytes, and the
configured timeout bounds each wait for the next data arrival, re-armed on
every pass of the `select` loop: whenever every arrival gap is within one
timeout window and enough bytes arrive, the full count is delivered (even
when the gaps sum to more than one window), and the total wait is bounded
by one window per arrival plus one, not by a single window. -/
theorem receive_port_rearmed_timeout (timeout lenRx : Nat) (buffered : List Nat)
    (arrivals : List (Nat × List Nat)) :
    (receive_port timeout lenRx buffered arrivals).1.length ≤ lenRx
  ∧ ((∀ p ∈ arrivals, p.1 ≤ timeout) →
      lenRx ≤ buffered.length + (arrivals.map fun p => p.2.length).sum →
      (receive_port timeout lenRx buffered arrivals).1.length = lenRx)
  ∧ (receive_port timeout lenRx buffered arrivals).2 ≤
      timeout * (arrivals.length + 1) := by
  unfold receive_port
  refine ⟨?_, ?_, ?_⟩
  · refine le_trans (receive_loop_length_le timeout arrivals _ 0 _) ?_
    have hgot : (buffered.take lenRx).length ≤ lenRx := by simp
    omega
  · intro hdelay hsum
    have hgot : (buffered.take lenRx).length = min lenRx buffered.length := by
      simp [Nat.min_comm]
    rw [receive_loop_full timeout arrivals _ 0 _ hdelay (by omega)]
    omega
  · exact le_trans (receive_loop_elapsed_le timeout arrivals _ 0 _) (by simp)

/-- Claim C3 witness: the amended statement at the counterexample's
schedule — both hypotheses of the full-delivery conjunct discharged
concretely. -/
theorem receive_port_rearmed_timeout_witness :
    (receive_port 100 2 [] [(90, [7]), (90, [8])]).1.length = 2
  ∧ (receive_port 100 2 [] [(90, [7]), (90, [8])]).2 ≤ 100 * 3 :=
  ⟨(receive_port_rearmed_timeout 100 2 [] [(90, [7]), (90, [8])]).2.1
      (by decide) (by decide),
   by simpa using (receive_port_rearmed_timeout 100 2 [] [(90, [7]), (90, [8])]).2.2⟩

/-- Claim C7: `bsl_getInfo` probes 0x047FFF, 0x027FFF, 0x00FFFF, 0x009FFF
in exactly that descending order.  For each k, with the first k probes
`NACK`ed at the address phase and probe k+1 fully `ACK`ed, the result is
the corresponding density (256, 128, 32, 8 kB) paired with byte 2 of the
9-byte GET response, and the frames on the wire show that the later
probes are not executed; with all four probes `NACK`ed the result is the
"cannot identify device" exit (`deviceNotIdentified`) after exactly the
four probe dialogues. -/
theorem getInfo_density_probe_order (vt nb v d : Nat) :
    (bsl_getInfo ⟨[[ACK], [ACK], [ACK, d],
        [ACK, nb, v, GET, READ, GO, WRITE, ERASE, ACK]], [], vt⟩)
      = (⟨[], [[READ, Nat.xor READ 0xFF], encode_addr 0x047FFF, [0x00, 0xFF],
               [GET, Nat.xor GET 0xFF]], 10⟩, .ok (256, v))
  ∧ (bsl_getInfo ⟨[[ACK], [NACK], [ACK], [ACK], [ACK, d],
        [ACK, nb, v, GET, READ, GO, WRITE, ERASE, ACK]], [], vt⟩)
      = (⟨[], [[READ, Nat.xor READ 0xFF], encode_addr 0x047FFF,
               [READ, Nat.xor READ 0xFF], encode_addr 0x027FFF, [0x00, 0xFF],
               [GET, Nat.xor GET 0xFF]], 10⟩, .ok (128, v))
  ∧ (bsl_getInfo ⟨[[ACK], [NACK], [ACK], [NACK], [ACK], [ACK], [ACK, d],
        [ACK, nb, v, GET, READ, GO, WRITE, ERASE, ACK]], [], vt⟩)
      = (⟨[], [[READ, Nat.xor READ 0xFF], encode_addr 0x047FFF,
               [READ, Nat.xor READ 0xFF], encode_addr 0x027FFF,
               [READ, Nat.xor READ 0xFF], encode_addr 0x00FFFF, [0x00, 0xFF],
               [GET, Nat.xor GET 0xFF]], 10⟩, .ok (32, v))
  ∧ (bsl_getInfo ⟨[[ACK], [NACK], [ACK], [NACK], [ACK], [NACK], [ACK], [ACK], [ACK, d],
        [ACK, nb, v, GET, READ, GO, WRITE, ERASE, ACK]], [], vt⟩)
      = (⟨[], [[READ, Nat.xor READ 0xFF], encode_addr 0x047FFF,
               [READ, Nat.xor READ 0xFF], encode_addr 0x027FFF,
               [READ, Nat.xor READ 0xFF], encode_addr 0x00FFFF,
               [READ, Nat.xor READ 0xFF], encode_addr 0x009FFF, [0x00, 0xFF],
               [GET, Nat.xor GET 0xFF]], 10⟩, .ok (8, v))
  ∧ (bsl_getInfo ⟨[[ACK], [NACK], [ACK], [NACK], [ACK], [NACK], [ACK], [NACK]], [], vt⟩)
      = (⟨[], [[READ, Nat.xor READ 0xFF], encode_addr 0x047FFF,
               [READ, Nat.xor READ 0xFF], encode_addr 0x027FFF,
               [READ, Nat.xor READ 0xFF], encode_addr 0x00FFFF,
               [READ, Nat.xor READ 0xFF], encode_addr 0x009FFF], 1⟩,
         .error .deviceNotIdentified) :=
  ⟨rfl, rfl, rfl, rfl, rfl⟩

/-- One all-`ACK` chunk step consumes three scripted replies. -/
theorem replicate_ack_threes (m : Nat) :
    List.replicate (m + 3) ([ACK] : List Nat) =
      [ACK] :: [ACK] :: [ACK] :: List.replicate m [ACK] := by
  rw [show m + 3 = ((m + 1) + 1) + 1 by ring]
  simp [List.replicate_succ]

/-- With an all-`ACK` script of exactly three replies per chunk (plus an
arbitrary untouched remainder), `bsl_memWrite`'s loop succeeds, consumes
exactly those replies and puts `writeFrames` on the wire. -/
theorem memWriteLoop_allAck :
    ∀ n (data : List Nat), data.length ≤ n →
      ∀ (addr vt : Nat) (sent0 rest : List (List Nat)),
        memWriteLoop
            ⟨List.replicate (3 * (chunks128 data).length) [ACK] ++ rest, sent0, vt⟩
            addr data
          = (⟨rest, sent0 ++ writeFrames addr data, vt⟩, .ok ()) := by
  intro n
  induction n with
  | zero =>
    intro data h addr vt sent0 rest
    have hnil : data = [] := by
      cases data with
      | nil => rfl
      | cons a l => simp at h
    subst hnil
    simp [memWriteLoop, chunks128, writeFrames]
  | succ n ih =>
    intro data h addr vt sent0 rest
    by_cases hnil : data = []
    · subst hnil
      simp [memWriteLoop, chunks128, writeFrames]
    · have hch : chunks128 data =
          data.take (min 128 data.length) :: chunks128 (data.drop (min 128 data.length)) := by
        rw [chunks128]
        simp [hnil]
      have hlen3 : 3 * (chunks128 data).length =
          3 * (chunks128 (data.drop (min 128 data.length))).length + 3 := by
        rw [hch, List.length_cons]
        ring
      have hpos : 0 < data.length := List.length_pos.mpr hnil
      have hdrop : (data.drop (min 128 data.length)).length ≤ n := by
        simp only [List.length_drop]
        omega
      rw [hlen3, replicate_ack_threes]
      rw [memWriteLoop]
      simp only [dif_neg hnil]
      simp [sendF, recvF]
      rw [ih (data.drop (min 128 data.length)) hdrop (addr + min 128 data.length) vt
        (sent0 ++ [[WRITE, Nat.xor WRITE 0xFF], encode_addr addr,
          payloadFrame (data.take (min 128 data.length))]) rest]
      conv_rhs => rw [writeFrames]
      simp only [dif_neg hnil]
      simp [List.append_assoc]



/-- The payload frame's terminating byte is the XOR chain of the
length byte and the data bytes. -/
theorem payloadFrame_spec (chunk : List Nat) :
    payloadFrame chunk =
      ((chunk.length - 1) % 256) :: chunk.map (· % 256) ++
        [Nat.xor ((chunk.length - 1) % 256) ((chunk.map (· % 256)).foldr Nat.xor 0)] := by
  simp only [payloadFrame]
  rw [foldl_xor_eq_xor_foldr]

/-- `writeFrames` (the loop's running-XOR payload frames) equals the
spec-shaped `writeFramesSpec` (XOR-chain checksums): the C accumulator
`chk = (s-1); chk ^= d...` computes `(s-1) XOR d0 XOR ... XOR d(s-1)`. -/
theorem writeFrames_eq_spec_aux :
    ∀ n (data : List Nat), data.length ≤ n → ∀ addr,
      writeFrames addr data = writeFramesSpec addr data := by
  intro n
  induction n with
  | zero =>
    intro data h addr
    have hnil : data = [] := by
      cases data with
      | nil => rfl
      | cons a l => simp at h
    subst hnil
    rw [writeFrames, writeFramesSpec]
    simp
  | succ n ih =>
    intro data h addr
    by_cases hnil : data = []
    · subst hnil
      rw [writeFrames, writeFramesSpec]
      simp
    · have hpos : 0 < data.length := List.length_pos.mpr hnil
      have hdrop : (data.drop (min 128 data.length)).length ≤ n := by
        simp only [List.length_drop]
        omega
      have htk : (data.take (min 128 data.length)).length = min 128 data.length := by
        simp [Nat.min_le_right]
      rw [writeFrames, writeFramesSpec]
      simp only [dif_neg hnil]
      rw [ih (data.drop (min 128 data.length)) hdrop (addr + min 128 data.length),
        payloadFrame_spec, htk]

/-- Every chunk the write loop forms has at most 128 bytes, and the
chunks concatenate back to the original data. -/
theorem chunks128_le_and_join :
    ∀ n (data : List Nat), data.length ≤ n →
      (∀ c ∈ chunks128 data, c.length ≤ 128) ∧ (chunks128 data).flatten = data := by
  intro n
  induction n with
  | zero =>
    intro data h
    have hnil : data = [] := by
      cases data with
      | nil => rfl
      | cons a l => simp at h
    subst hnil
    rw [chunks128]
    simp
  | succ n ih =>
    intro data h
    by_cases hnil : data = []
    · subst hnil; rw [chunks128]; simp
    · have hpos : 0 < data.length := List.length_pos.mpr hnil
      have hdrop : (data.drop (min 128 data.length)).length ≤ n := by
        simp only [List.length_drop]
        omega
      obtain ⟨ihle, ihjoin⟩ := ih (data.drop (min 128 data.length)) hdrop
      rw [chunks128]
      simp only [dif_neg hnil]
      constructor
      · intro c hc
        rcases List.mem_cons.mp hc with hc | hc
        · subst hc
          simp [Nat.min_le_left]
        · exact ihle c hc
      · simp [ihjoin]

/-- Claim C8: `bsl_memWrite` splits the transfer into chunks of at most
128 bytes (which concatenate back to the caller's data); with an all-`ACK`
script it sends, per chunk at address `a`, the frames `[WRITE, WRITE^FF]`,
`encode_addr a` and the payload frame; every payload frame is
`[s-1, d0, ..., d(s-1), chk]` with `chk = (s-1) XOR d0 XOR ... XOR d(s-1)`
(`writeFramesSpec` states the checksum as that XOR chain); and the 2-byte
example `[0x12, 0x34]` yields the payload frame `01 12 34 27`. -/
theorem memWrite_chunking_checksum (addr vt : Nat) (data : List Nat) :
    bsl_memWrite ⟨List.replicate (3 * (chunks128 data).length) [ACK], [], vt⟩ addr data
      = (⟨[], writeFrames addr data, vt⟩, .ok ())
  ∧ writeFrames addr data = writeFramesSpec addr data
  ∧ (∀ c ∈ chunks128 data, c.length ≤ 128)
  ∧ (chunks128 data).flatten = data
  ∧ payloadFrame [0x12, 0x34] = [0x01, 0x12, 0x34, 0x27] := by
  refine ⟨?_, writeFrames_eq_spec_aux data.length data (Nat.le_refl _) addr,
    (chunks128_le_and_join data.length data (Nat.le_refl _)).1,
    (chunks128_le_and_join data.length data (Nat.le_refl _)).2, by decide⟩
  have := memWriteLoop_allAck data.length data (Nat.le_refl _) addr vt [] []
  simpa [bsl_memWrite] using this

/-- Claim C8 witness: the amended-free statement instantiated at the
spec's own example — writing `[0x12, 0x34]` to 0x8000 — with the chunk
bound discharged at the single chunk. -/
theorem memWrite_chunking_checksum_witness :
    bsl_memWrite ⟨List.replicate (3 * (chunks128 [0x12, 0x34]).length) [ACK], [], 10⟩
        0x8000 [0x12, 0x34]
      = (⟨[], writeFrames 0x8000 [0x12, 0x34], 10⟩, .ok ())
  ∧ ([0x12, 0x34] : List Nat).length ≤ 128
  ∧ payloadFrame [0x12, 0x34] = [0x01, 0x12, 0x34, 0x27] :=
  ⟨(memWrite_chunking_checksum 0x8000 10 [0x12, 0x34]).1,
   (memWrite_chunking_checksum 0x8000 10 [0x12, 0x34]).2.2.1 [0x12, 0x34]
     (by simp [chunks128]),
   (memWrite_chunking_checksum 0x8000 10 [0x12, 0x34]).2.2.2.2⟩

/-- Claim C9: `bsl_flashErase addr` computes the 8-bit sector code
`(addr - 0x8000) / 1024` and, on an `ACK`-ing target, sends exactly the
two frames `[ERASE, ERASE^0xFF]` and `[0x00, sector, 0x00^sector]` (the
XOR with 0x00 leaves the sector byte itself) and succeeds. -/
theorem flashErase_frames (addr vt : Nat) (h1 : 0x8000 ≤ addr)
    (h2 : addr < 0x100000000) :
    bsl_flashErase ⟨[[ACK], [ACK]], [], vt⟩ addr
      = (⟨[], [[ERASE, Nat.xor ERASE 0xFF],
               [0x00, (addr - 0x8000) / 1024 % 256, (addr - 0x8000) / 1024 % 256]],
          vt⟩, .ok ()) := by
  have hsec : eraseSector addr = (addr - 0x8000) / 1024 % 256 := by
    unfold eraseSector
    have hmod : addr + 0x100000000 - 0x8000 = (addr - 0x8000) + 0x100000000 := by
      omega
    rw [hmod, Nat.add_mod_right, Nat.mod_eq_of_lt (by omega : addr - 0x8000 < 0x100000000)]
  simp [bsl_flashErase, hsec, sendF, recvF, xor_def, Nat.zero_xor, ACK]

/-- Claim C9 witness: erasing the sector containing 0x8C00 — sector code
`(0x8C00 - 0x8000) / 1024 = 3`, wire `43 BC` then `00 03 03`. -/
theorem flashErase_frames_witness :
    bsl_flashErase ⟨[[ACK], [ACK]], [], 10⟩ 0x8C00
      = (⟨[], [[ERASE, Nat.xor ERASE 0xFF],
               [0x00, (0x8C00 - 0x8000) / 1024 % 256, (0x8C00 - 0x8000) / 1024 % 256]],
          10⟩, .ok ())
  ∧ (0x8C00 - 0x8000) / 1024 % 256 = 3 :=
  ⟨flashErase_frames 0x8C00 10 (by decide) (by decide), by decide⟩

end STM8
